import Mathlib

/-!
Shallow embedding of the barstock consumption-ledger core
(`backend/app/models/*.py`, `backend/app/services/*.py`) and proofs of the
spec's claims about it.

Conventions of the embedding:
* SQLAlchemy rows become Lean structures; UUID keys become `Nat` ids;
  `datetime` timestamps become `Int`; Python `float` quantities become `Rat`.
* The database session becomes an explicit `DB` value holding the tables as
  lists; `query(...).filter(...).first()` becomes `List.find?` and
  `.all()` becomes `List.filter`, preserving table order.
* `db.add` stages an event; a service operation returns its committed
  post-state, and an operation that raises before `commit` returns an
  `Except.error` and commits nothing (one transaction per operation).
* Python `raise ValueError(...)` sites are modelled as distinct
  constructors of `LedgerError`, named after the condition each message
  reports.
-/

namespace Barstock

/-- Event kind enumeration (`EventType` in `models/ledger.py`). -/
inductive EventType where
  | pos_sale
  | tap_flow
  | manual_adjustment
  | inventory_count_adjustment
  | transfer
  deriving DecidableEq, Repr

/-- Confidence level enumeration (`ConfidenceLevel` in `models/ledger.py`). -/
inductive ConfidenceLevel where
  | theoretical
  | measured
  | estimated
  deriving DecidableEq, Repr

/-- Variance reason enumeration (`VarianceReason` in `models/ledger.py`). -/
inductive VarianceReason where
  | waste_foam
  | comp
  | staff_drink
  | theft
  | breakage
  | line_cleaning
  | transfer
  | unknown
  deriving DecidableEq, Repr

/-- Unit of measure enumeration (`UOMEnum` in `models/ledger.py`). -/
inductive UOMEnum where
  | units
  | oz
  | ml
  | grams
  deriving DecidableEq, Repr

/-- Source system enumeration (`SourceSystem` in `models/pos.py`). -/
inductive SourceSystem where
  | toast
  | square
  | lightspeed
  | clover
  | other
  | manual
  deriving DecidableEq, Repr

/-- Mapping mode enumeration (`MappingMode` in `models/pos.py`). -/
inductive MappingMode where
  | packaged_unit
  | draft_by_tap
  | draft_by_product
  deriving DecidableEq, Repr

/-- A row of `consumption_events` (`ConsumptionEvent` in `models/ledger.py`). -/
structure ConsumptionEvent where
  id : Nat
  location_id : Nat
  event_type : EventType
  source_system : SourceSystem
  event_ts : Int
  inventory_item_id : Nat
  keg_instance_id : Option Nat
  tap_line_id : Option Nat
  receipt_id : Option String
  sales_line_id : Option Nat
  quantity_delta : Rat
  uom : UOMEnum
  confidence_level : ConfidenceLevel
  variance_reason : Option VarianceReason
  notes : String
  reversal_of_event_id : Option Nat
  deriving DecidableEq, Repr

/-- A row of `sales_lines` (`SalesLine` in `models/pos.py`). -/
structure SalesLine where
  id : Nat
  source_system : SourceSystem
  source_location_id : String
  location_id : Nat
  business_date : Int
  sold_at : Int
  receipt_id : String
  line_id : String
  pos_item_id : String
  pos_item_name : String
  quantity : Rat
  is_voided : Bool
  is_refunded : Bool
  size_modifier_id : Option String
  deriving DecidableEq, Repr

/-- A row of `pos_item_mappings` (`POSItemMapping` in `models/pos.py`). -/
structure POSItemMapping where
  id : Nat
  location_id : Nat
  source_system : SourceSystem
  pos_item_id : String
  inventory_item_id : Nat
  mode : MappingMode
  pour_profile_id : Option Nat
  tap_line_id : Option Nat
  active : Bool
  effective_from_ts : Int
  effective_to_ts : Option Int
  deriving DecidableEq, Repr

/-- A row of `tap_assignments` (`TapAssignment` in `models/draft.py`). -/
structure TapAssignment where
  id : Nat
  location_id : Nat
  tap_line_id : Nat
  keg_instance_id : Nat
  effective_start_ts : Int
  effective_end_ts : Option Int
  deriving DecidableEq, Repr

/-- A row of `pour_profiles` (`PourProfile` in `models/draft.py`). -/
structure PourProfile where
  id : Nat
  location_id : Nat
  name : String
  oz : Rat
  active : Bool
  deriving DecidableEq, Repr

/-- A row of `keg_instances` (`KegInstance` in `models/draft.py`). -/
structure KegInstance where
  id : Nat
  location_id : Nat
  inventory_item_id : Nat
  keg_size_id : Nat
  starting_oz : Rat
  deriving DecidableEq, Repr

/-- A row of `inventory_sessions` (`InventorySession` in `models/session.py`). -/
structure InventorySession where
  id : Nat
  location_id : Nat
  started_ts : Int
  ended_ts : Option Int
  deriving DecidableEq, Repr

/-- A row of `inventory_session_lines` (`InventorySessionLine` in
`models/session.py`); only the columns read by the services appear. -/
structure InventorySessionLine where
  id : Nat
  session_id : Nat
  inventory_item_id : Nat
  count_units : Option Rat
  tap_line_id : Option Nat
  keg_instance_id : Option Nat
  percent_remaining : Option Rat
  gross_weight_grams : Option Rat
  derived_oz : Option Rat
  deriving DecidableEq, Repr

/-- A row of `inventory_items` (`InventoryItem` in `models/inventory.py`). -/
structure InventoryItem where
  id : Nat
  location_id : Nat
  name : String
  base_uom : UOMEnum
  active : Bool
  deriving DecidableEq, Repr

/-- A row of `price_history` (`PriceHistory` in `models/inventory.py`). -/
structure PriceHistory where
  id : Nat
  inventory_item_id : Nat
  unit_cost : Rat
  effective_from_ts : Int
  effective_to_ts : Option Int
  deriving DecidableEq, Repr

/-- The database state seen by the services: one list per table, in table
order, plus a counter standing in for primary-key generation. -/
structure DB where
  sales_lines : List SalesLine
  events : List ConsumptionEvent
  mappings : List POSItemMapping
  tap_assignments : List TapAssignment
  pour_profiles : List PourProfile
  kegs : List KegInstance
  sessions : List InventorySession
  session_lines : List InventorySessionLine
  items : List InventoryItem
  prices : List PriceHistory
  next_id : Nat
  deriving Repr

/-- The error conditions the services raise: each `raise ValueError(...)`
site in the source, named after the condition its message reports, plus
`name_error` for the `NameError` the interpreter raises inside
`_create_reversal_event`, where the name `PourProfile` is referenced but
unbound — the only import of it in `depletion_service.py` is local to the
body of `_deplete_draft_by_tap`. -/
inductive LedgerError where
  | immutability_violation
  | not_found
  | session_already_closed
  | missing_variance_reason (items : List Nat)
  | name_error
  deriving DecidableEq, Repr

/-! ## Mapping and assignment resolution (`DepletionEngine` queries) -/

/-- The filter of `DepletionEngine._get_active_mapping`: active mapping for
the (location, source system, POS item) key whose half-open effective
window contains `as_of`. -/
def mapping_matches (location_id : Nat) (source_system : SourceSystem)
    (pos_item_id : String) (as_of : Int) (m : POSItemMapping) : Bool :=
  decide (m.location_id = location_id) &&
  decide (m.source_system = source_system) &&
  decide (m.pos_item_id = pos_item_id) &&
  m.active &&
  decide (m.effective_from_ts ≤ as_of) &&
  (match m.effective_to_ts with
   | none => true
   | some e => decide (e > as_of))

/-- `DepletionEngine._get_active_mapping`: `.first()` over the filtered
mappings table. -/
def get_active_mapping (db : DB) (location_id : Nat)
    (source_system : SourceSystem) (pos_item_id : String) (as_of : Int) :
    Option POSItemMapping :=
  db.mappings.find? (mapping_matches location_id source_system pos_item_id as_of)

/-- The tap-assignment filter inside `DepletionEngine._deplete_draft_by_tap`:
assignment for the tap line whose half-open effective window contains the
sale time. -/
def assignment_matches (tap_line_id : Nat) (as_of : Int) (a : TapAssignment) : Bool :=
  decide (a.tap_line_id = tap_line_id) &&
  decide (a.effective_start_ts ≤ as_of) &&
  (match a.effective_end_ts with
   | none => true
   | some e => decide (e > as_of))

/-- `DepletionEngine._is_already_depleted`: does any consumption event
reference this sales line? -/
def is_already_depleted (db : DB) (sales_line_id : Nat) : Bool :=
  (db.events.find? (fun e => decide (e.sales_line_id = some sales_line_id))).isSome

/-! ## Event creation (`DepletionEngine`) -/

/-- `DepletionEngine._deplete_packaged`: the single event posted for a
packaged-unit sale. `eid` stands in for the generated primary key. -/
def deplete_packaged (sales_line : SalesLine) (mapping : POSItemMapping)
    (eid : Nat) : ConsumptionEvent :=
  { id := eid
    location_id := sales_line.location_id
    event_type := EventType.pos_sale
    source_system := sales_line.source_system
    event_ts := sales_line.sold_at
    inventory_item_id := mapping.inventory_item_id
    keg_instance_id := none
    tap_line_id := none
    receipt_id := some sales_line.receipt_id
    sales_line_id := some sales_line.id
    quantity_delta := -sales_line.quantity
    uom := UOMEnum.units
    confidence_level := ConfidenceLevel.theoretical
    variance_reason := none
    notes := "POS sale: " ++ sales_line.pos_item_name
    reversal_of_event_id := none }

/-- `DepletionEngine._deplete_draft_by_tap`: returns the events it adds
(none when the pour profile is missing or no tap assignment is effective
at the sale time). -/
def deplete_draft_by_tap (db : DB) (sales_line : SalesLine)
    (mapping : POSItemMapping) (eid : Nat) : List ConsumptionEvent :=
  match mapping.pour_profile_id with
  | none => []
  | some ppid =>
    match db.pour_profiles.find? (fun p => decide (p.id = ppid)) with
    | none => []
    | some pour_profile =>
      let oz_depleted := sales_line.quantity * pour_profile.oz
      let tap_assignment :=
        match mapping.tap_line_id with
        | none => none
        | some tl => db.tap_assignments.find? (assignment_matches tl sales_line.sold_at)
      match tap_assignment with
      | none => []
      | some assignment =>
        [{ id := eid
           location_id := sales_line.location_id
           event_type := EventType.pos_sale
           source_system := sales_line.source_system
           event_ts := sales_line.sold_at
           inventory_item_id := mapping.inventory_item_id
           keg_instance_id := some assignment.keg_instance_id
           tap_line_id := mapping.tap_line_id
           receipt_id := some sales_line.receipt_id
           sales_line_id := some sales_line.id
           quantity_delta := -oz_depleted
           uom := UOMEnum.oz
           confidence_level := ConfidenceLevel.theoretical
           variance_reason := none
           notes := "Draft sale: " ++ sales_line.pos_item_name ++ ", " ++ pour_profile.name
           reversal_of_event_id := none }]

/-- `DepletionEngine._create_reversal_event`: for a packaged-unit mapping
it stages the one positive reversal event (delta = the sold quantity, in
units). For any other mapping mode the branch's first statement queries
`PourProfile`, a name that is unbound at that point in the source (its
only import sits inside `_deplete_draft_by_tap`), so the interpreter
raises `NameError` before anything is created. -/
def create_reversal_event (_db : DB) (sales_line : SalesLine)
    (mapping : POSItemMapping) (eid : Nat) :
    Except LedgerError (List ConsumptionEvent) :=
  if mapping.mode = MappingMode.packaged_unit then
    Except.ok
      [{ id := eid
         location_id := sales_line.location_id
         event_type := EventType.pos_sale
         source_system := sales_line.source_system
         event_ts := sales_line.sold_at
         inventory_item_id := mapping.inventory_item_id
         keg_instance_id := none
         tap_line_id := none
         receipt_id := some sales_line.receipt_id
         sales_line_id := some sales_line.id
         quantity_delta := sales_line.quantity
         uom := UOMEnum.units
         confidence_level := ConfidenceLevel.theoretical
         variance_reason := none
         notes := "Void/Refund reversal: " ++ sales_line.pos_item_name
         reversal_of_event_id := none }]
  else
    Except.error LedgerError.name_error

/-- `DepletionEngine._create_consumption_events`: dispatch on void flags and
mapping mode; `draft_by_product` is the documented no-op, and so is an
unknown mode (none exists beyond the three constructors). The void branch
can raise (see `create_reversal_event`). -/
def create_consumption_events (db : DB) (sales_line : SalesLine)
    (mapping : POSItemMapping) (eid : Nat) :
    Except LedgerError (List ConsumptionEvent) :=
  if sales_line.is_voided || sales_line.is_refunded then
    create_reversal_event db sales_line mapping eid
  else
    match mapping.mode with
    | MappingMode.packaged_unit =>
      Except.ok [deplete_packaged sales_line mapping eid]
    | MappingMode.draft_by_tap =>
      Except.ok (deplete_draft_by_tap db sales_line mapping eid)
    | MappingMode.draft_by_product => Except.ok []

/-! ## The depletion run (`DepletionEngine.process_sales_lines`) -/

/-- The aggregate counters returned by a depletion run. -/
structure RunStats where
  processed : Nat
  created : Nat
  unmapped : Nat
  skipped : Nat
  deriving DecidableEq, Repr

/-- The body of the per-sales-line loop of
`DepletionEngine.process_sales_lines`. An exception raised while creating
events propagates: the rest of the loop is not reached and the
transaction is never committed. -/
def process_step (location_id : Nat)
    (acc : Except LedgerError (DB × RunStats))
    (sales_line : SalesLine) : Except LedgerError (DB × RunStats) :=
  match acc with
  | Except.error e => Except.error e
  | Except.ok (db, stats) =>
    if is_already_depleted db sales_line.id then
      Except.ok (db, { stats with skipped := stats.skipped + 1 })
    else
      let stats := { stats with processed := stats.processed + 1 }
      match get_active_mapping db location_id sales_line.source_system
          sales_line.pos_item_id sales_line.sold_at with
      | none => Except.ok (db, { stats with unmapped := stats.unmapped + 1 })
      | some mapping =>
        match create_consumption_events db sales_line mapping db.next_id with
        | Except.error e => Except.error e
        | Except.ok evs =>
          Except.ok
            ({ db with events := db.events ++ evs,
                       next_id := db.next_id + evs.length },
             { stats with created := stats.created + evs.length })

/-- The window filter of `DepletionEngine.process_sales_lines`. -/
def in_window (location_id : Nat) (from_ts to_ts : Int) (sl : SalesLine) : Bool :=
  decide (sl.location_id = location_id) &&
  decide (from_ts ≤ sl.sold_at) &&
  decide (sl.sold_at < to_ts)

/-- `DepletionEngine.process_sales_lines`: fold the loop body over the
sales lines of the window and commit; an uncaught exception aborts the
run and commits nothing. -/
def process_sales_lines (db : DB) (location_id : Nat) (from_ts to_ts : Int) :
    Except LedgerError (DB × RunStats) :=
  (db.sales_lines.filter (in_window location_id from_ts to_ts)).foldl
    (process_step location_id)
    (Except.ok (db, { processed := 0, created := 0, unmapped := 0, skipped := 0 }))

/-- The stats dict a depletion run returns; `none` when the run raised. -/
def run_stats (r : Except LedgerError (DB × RunStats)) : Option RunStats :=
  match r with
  | Except.ok x => some x.2
  | Except.error _ => none

/-! ## Ledger immutability (`models/ledger.py` event listeners) -/

/-- `block_consumption_event_update` in `models/ledger.py`: the
`before_update` listener raises unconditionally. -/
def block_consumption_event_update : Except LedgerError Unit :=
  Except.error LedgerError.immutability_violation

/-- `block_consumption_event_delete` in `models/ledger.py`: the
`before_delete` listener raises unconditionally. -/
def block_consumption_event_delete : Except LedgerError Unit :=
  Except.error LedgerError.immutability_violation

/-- An ORM flush of an UPDATE on `consumption_events`: the `before_update`
listener runs first; only if it returns normally would the row change. -/
def update_consumption_event (db : DB) (eid : Nat)
    (f : ConsumptionEvent → ConsumptionEvent) : Except LedgerError DB :=
  match block_consumption_event_update with
  | Except.error e => Except.error e
  | Except.ok _ =>
    Except.ok { db with
      events := db.events.map (fun ev => if ev.id = eid then f ev else ev) }

/-- An ORM flush of a DELETE on `consumption_events`: the `before_delete`
listener runs first; only if it returns normally would the row go away. -/
def delete_consumption_event (db : DB) (eid : Nat) : Except LedgerError DB :=
  match block_consumption_event_delete with
  | Except.error e => Except.error e
  | Except.ok _ =>
    Except.ok { db with
      events := db.events.filter (fun ev => !(decide (ev.id = eid))) }

/-! ## Correction (`DepletionEngine.correct_event`) -/

/-- `DepletionEngine.correct_event`: reversal + replacement pattern. `now`
stands in for `datetime.utcnow()`; the two fresh primary keys are
`db.next_id` and `db.next_id + 1`. -/
def correct_event (db : DB) (original_event_id : Nat)
    (new_quantity_delta : Rat) (new_uom : UOMEnum) (reason : String)
    (now : Int) : Except LedgerError (DB × (Nat × Nat)) :=
  match db.events.find? (fun e => decide (e.id = original_event_id)) with
  | none => Except.error LedgerError.not_found
  | some original =>
    let reversal : ConsumptionEvent :=
      { id := db.next_id
        location_id := original.location_id
        event_type := original.event_type
        source_system := SourceSystem.manual
        event_ts := now
        inventory_item_id := original.inventory_item_id
        keg_instance_id := original.keg_instance_id
        tap_line_id := original.tap_line_id
        receipt_id := none
        sales_line_id := none
        quantity_delta := -original.quantity_delta
        uom := original.uom
        confidence_level := ConfidenceLevel.estimated
        variance_reason := none
        notes := "Correction reversal: " ++ reason
        reversal_of_event_id := some original_event_id }
    let replacement : ConsumptionEvent :=
      { id := db.next_id + 1
        location_id := original.location_id
        event_type := original.event_type
        source_system := SourceSystem.manual
        event_ts := now
        inventory_item_id := original.inventory_item_id
        keg_instance_id := original.keg_instance_id
        tap_line_id := original.tap_line_id
        receipt_id := none
        sales_line_id := none
        quantity_delta := new_quantity_delta
        uom := new_uom
        confidence_level := ConfidenceLevel.estimated
        variance_reason := none
        notes := "Correction replacement: " ++ reason
        reversal_of_event_id := none }
    Except.ok
      ({ db with events := db.events ++ [reversal, replacement],
                 next_id := db.next_id + 2 },
       (reversal.id, replacement.id))

/-! ## Session close (`services/session_service.py`) -/

/-- `SessionService._calculate_theoretical_on_hand`: sum of all ledger
deltas for the item with event time up to `as_of`. -/
def calculate_theoretical_on_hand (events : List ConsumptionEvent)
    (item_id : Nat) (as_of : Int) : Rat :=
  ((events.filter (fun e =>
      decide (e.inventory_item_id = item_id) && decide (e.event_ts ≤ as_of))).map
    (fun e => e.quantity_delta)).sum

/-- `SessionService._get_actual_from_line`: `count_units` if set, else
`derived_oz` if set, else 0. -/
def get_actual_from_line (line : InventorySessionLine) : Rat :=
  match line.count_units with
  | some u => u
  | none =>
    match line.derived_oz with
    | some v => v
    | none => 0

/-- The fixed threshold of `SessionService.close_session`. -/
def variance_threshold : Rat := 5

/-- The adjustment event staged by `SessionService.close_session` for a
line with nonzero variance. -/
def make_adjustment_event (session : InventorySession)
    (line : InventorySessionLine) (variance : Rat)
    (reason : Option VarianceReason) (now : Int) (eid : Nat) :
    ConsumptionEvent :=
  { id := eid
    location_id := session.location_id
    event_type := EventType.inventory_count_adjustment
    source_system := SourceSystem.manual
    event_ts := now
    inventory_item_id := line.inventory_item_id
    keg_instance_id := none
    tap_line_id := none
    receipt_id := none
    sales_line_id := none
    quantity_delta := variance
    uom := UOMEnum.units
    confidence_level := ConfidenceLevel.measured
    variance_reason := reason
    notes := "Session adjustment"
    reversal_of_event_id := none }

/-- The body of the per-line loop of `SessionService.close_session`. The
accumulator carries (staged adjustment events, running total variance,
items still requiring a reason); theoretical on-hand is computed over the
ledger together with the adjustments staged so far, matching the ORM
session's autoflush view. -/
def close_step (db : DB) (session : InventorySession)
    (variance_reasons : Nat → Option VarianceReason) (now : Int)
    (acc : List ConsumptionEvent × Rat × List Nat)
    (line : InventorySessionLine) : List ConsumptionEvent × Rat × List Nat :=
  let adjs := acc.1
  let total := acc.2.1
  let reqs := acc.2.2
  let theoretical := calculate_theoretical_on_hand (db.events ++ adjs)
    line.inventory_item_id session.started_ts
  let actual := get_actual_from_line line
  let variance := actual - theoretical
  let total := total + |variance|
  if decide (variance_threshold < |variance|) &&
      (variance_reasons line.inventory_item_id).isNone then
    (adjs, total, reqs ++ [line.inventory_item_id])
  else if variance = 0 then
    (adjs, total, reqs)
  else
    (adjs ++ [make_adjustment_event session line variance
        (variance_reasons line.inventory_item_id) now (db.next_id + adjs.length)],
     total, reqs)

/-- The result dict of `SessionService.close_session`. -/
structure CloseResult where
  session_id : Nat
  adjustments_created : Nat
  total_variance : Rat
  deriving DecidableEq, Repr

/-- `SessionService.close_session`: loop over the session's lines, abort
before commit when any item still requires a variance reason, otherwise
commit the staged adjustments and stamp the session closed. -/
def close_session (db : DB) (session_id : Nat)
    (variance_reasons : Nat → Option VarianceReason) (now : Int) :
    Except LedgerError (DB × CloseResult) :=
  match db.sessions.find? (fun s => decide (s.id = session_id)) with
  | none => Except.error LedgerError.not_found
  | some session =>
    if session.ended_ts.isSome then
      Except.error LedgerError.session_already_closed
    else
      let lines := db.session_lines.filter (fun l => decide (l.session_id = session_id))
      let folded := lines.foldl (close_step db session variance_reasons now) ([], 0, [])
      let adjs := folded.1
      let total := folded.2.1
      let reqs := folded.2.2
      if reqs.isEmpty then
        Except.ok
          ({ db with
              events := db.events ++ adjs
              next_id := db.next_id + adjs.length
              sessions := db.sessions.map (fun s =>
                if s.id = session_id then { s with ended_ts := some now } else s) },
           { session_id := session_id
             adjustments_created := adjs.length
             total_variance := total })
      else
        Except.error (LedgerError.missing_variance_reason reqs)

/-! ## Keg remaining volume (`KegInstance.get_remaining_oz`) -/

/-- `KegInstance.get_remaining_oz`: start from the keg's starting volume,
add the delta of every ledger event referencing the keg with event time up
to the cutoff, and clamp at zero. -/
def get_remaining_oz (db : DB) (keg : KegInstance) (as_of : Int) : Rat :=
  let remaining :=
    (db.events.filter (fun e => decide (e.keg_instance_id = some keg.id))).foldl
      (fun r e => if e.event_ts ≤ as_of then r + e.quantity_delta else r)
      keg.starting_oz
  max 0 remaining

/-! ## Variance report (`services/variance_service.py`) -/

/-- `PriceHistory` effectiveness test inside `InventoryItem.get_current_price`. -/
def price_effective (as_of : Int) (p : PriceHistory) : Bool :=
  decide (p.effective_from_ts ≤ as_of) &&
  (match p.effective_to_ts with
   | none => true
   | some e => decide (e > as_of))

/-- `InventoryItem.get_current_price`: among the item's price rows effective
at `as_of`, the one with the greatest `effective_from_ts` (first such row
in table order on ties, matching the stable descending sort + first-match
scan of the source). -/
def get_current_price (db : DB) (item_id : Nat) (as_of : Int) : Option Rat :=
  let candidates := db.prices.filter (fun p =>
    decide (p.inventory_item_id = item_id) && price_effective as_of p)
  match candidates.foldl
      (fun best p =>
        match best with
        | none => some p
        | some b => if p.effective_from_ts > b.effective_from_ts then some p else some b)
      none with
  | none => none
  | some p => some p.unit_cost

/-- One entry of the `items` list of
`VarianceService.calculate_variance_report`. -/
structure VarianceReportItem where
  inventory_item_id : Nat
  theoretical : Rat
  actual : Rat
  variance : Rat
  variance_percent : Rat
  unit_cost : Option Rat
  value_impact : Option Rat
  deriving DecidableEq, Repr

/-- The per-item computation inside
`VarianceService.calculate_variance_report` (`now` stands in for the
`datetime.utcnow()` default of `get_current_price`). Python's falsiness
tests on `current_price` and `value_impact` are rendered as explicit
zero/None tests. -/
def variance_report_item (db : DB) (from_ts to_ts now : Int)
    (item : InventoryItem) : VarianceReportItem :=
  let theoretical :=
    ((db.events.filter (fun e =>
        decide (e.inventory_item_id = item.id) &&
        decide (e.event_ts ≥ from_ts) && decide (e.event_ts < to_ts) &&
        decide (e.event_type = EventType.pos_sale))).map
      (fun e => e.quantity_delta)).sum
  let adjustments :=
    ((db.events.filter (fun e =>
        decide (e.inventory_item_id = item.id) &&
        decide (e.event_ts ≥ from_ts) && decide (e.event_ts < to_ts) &&
        decide (e.event_type = EventType.inventory_count_adjustment))).map
      (fun e => e.quantity_delta)).sum
  let actual := theoretical + adjustments
  let variance := actual - theoretical
  let variance_percent :=
    if theoretical ≠ 0 then variance / |theoretical| * 100 else 0
  let current_price := get_current_price db item.id now
  let value_impact : Option Rat :=
    match current_price with
    | some c => if c ≠ 0 then some (variance * c) else none
    | none => none
  { inventory_item_id := item.id
    theoretical := |theoretical|
    actual := |actual|
    variance := variance
    variance_percent := variance_percent
    unit_cost := current_price
    value_impact := value_impact }

/-- The report of `VarianceService.calculate_variance_report`: one entry
per active item of the location, plus the accumulated absolute value
impact (only nonzero, priced impacts accumulate, matching the source's
truthiness test). -/
def calculate_variance_report (db : DB) (location_id : Nat)
    (from_ts to_ts now : Int) : List VarianceReportItem × Rat :=
  (db.items.filter (fun it =>
      decide (it.location_id = location_id) && it.active)).foldl
    (fun acc it =>
      let entry := variance_report_item db from_ts to_ts now it
      let total :=
        match entry.value_impact with
        | some v => if v ≠ 0 then acc.2 + |v| else acc.2
        | none => acc.2
      (acc.1 ++ [entry], total))
    ([], 0)

/-! ## Spec-side derived quantities and helpers used by the theorems -/

/-- On-hand for an item: the sum of all ledger deltas for that item. -/
def on_hand (events : List ConsumptionEvent) (item_id : Nat) : Rat :=
  ((events.filter (fun e => decide (e.inventory_item_id = item_id))).map
    (fun e => e.quantity_delta)).sum

/-- The sum of the deltas of the ledger events referencing a keg with event
time up to a cutoff. -/
def keg_deltas_sum (db : DB) (keg_id : Nat) (as_of : Int) : Rat :=
  ((db.events.filter (fun e =>
      decide (e.event_ts ≤ as_of) && decide (e.keg_instance_id = some keg_id))).map
    (fun e => e.quantity_delta)).sum

/-- The sum of `pos_sale` deltas for an item in a half-open window. -/
def theoretical_pos_sum (db : DB) (item_id : Nat) (from_ts to_ts : Int) : Rat :=
  ((db.events.filter (fun e =>
      decide (e.inventory_item_id = item_id) &&
      decide (e.event_ts ≥ from_ts) && decide (e.event_ts < to_ts) &&
      decide (e.event_type = EventType.pos_sale))).map
    (fun e => e.quantity_delta)).sum

/-- The sum of `inventory_count_adjustment` deltas for an item in a
half-open window. -/
def adjustment_window_sum (db : DB) (item_id : Nat) (from_ts to_ts : Int) : Rat :=
  ((db.events.filter (fun e =>
      decide (e.inventory_item_id = item_id) &&
      decide (e.event_ts ≥ from_ts) && decide (e.event_ts < to_ts) &&
      decide (e.event_type = EventType.inventory_count_adjustment))).map
    (fun e => e.quantity_delta)).sum

/-- The ledger as seen after an operation that may abort: the committed
post-state on success, the untouched pre-state on error. -/
def events_after {α : Type} (db : DB) (r : Except LedgerError (DB × α)) :
    List ConsumptionEvent :=
  match r with
  | Except.ok x => x.1.events
  | Except.error _ => db.events

/-- The sessions table as seen after an operation that may abort. -/
def sessions_after {α : Type} (db : DB)
    (r : Except LedgerError (DB × α)) : List InventorySession :=
  match r with
  | Except.ok x => x.1.sessions
  | Except.error _ => db.sessions

/-- How many active mappings for the key are effective at the instant. -/
def matching_mapping_count (db : DB) (location_id : Nat)
    (source_system : SourceSystem) (pos_item_id : String) (as_of : Int) : Nat :=
  (db.mappings.filter (mapping_matches location_id source_system pos_item_id as_of)).length

/-- A sales line with its void/refund flags cleared: the hypothetical
non-voided sale the void reverses. -/
def unvoid (sl : SalesLine) : SalesLine :=
  { sl with is_voided := false, is_refunded := false }

/-- Endpoint-level disjointness of two mapping effective windows
(`[from, to)` with `none` as no end): one window ends before the other
begins. -/
def windows_disjoint (m m' : POSItemMapping) : Bool :=
  match m.effective_to_ts, m'.effective_to_ts with
  | some e, some e' =>
    decide (e ≤ m'.effective_from_ts) || decide (e' ≤ m.effective_from_ts)
  | some e, none => decide (e ≤ m'.effective_from_ts)
  | none, some e' => decide (e' ≤ m.effective_from_ts)
  | none, none => false

/-- The variance `close_session` computes for a line against the ledger as
it stands at the start of the close. -/
def line_variance (db : DB) (session : InventorySession)
    (line : InventorySessionLine) : Rat :=
  get_actual_from_line line -
    calculate_theoretical_on_hand db.events line.inventory_item_id session.started_ts

/-- An empty database, the base of the concrete fixtures below. -/
def empty_db : DB :=
  { sales_lines := []
    events := []
    mappings := []
    tap_assignments := []
    pour_profiles := []
    kegs := []
    sessions := []
    session_lines := []
    items := []
    prices := []
    next_id := 0 }

/-! ## Concrete fixtures -/

/-- 16 fl-oz pour profile for the spec's worked example. -/
def c6_pour : PourProfile :=
  { id := 5, location_id := 1, name := "pint", oz := 16, active := true }

/-- Tap-scoped draft mapping for the spec's worked example. -/
def c6_mapping : POSItemMapping :=
  { id := 2, location_id := 1, source_system := SourceSystem.toast
    pos_item_id := "draft-ipa", inventory_item_id := 4
    mode := MappingMode.draft_by_tap, pour_profile_id := some 5
    tap_line_id := some 3, active := true
    effective_from_ts := 0, effective_to_ts := none }

/-- Tap 3 carries keg 9 over `[0, none)`. -/
def c6_assignment : TapAssignment :=
  { id := 6, location_id := 1, tap_line_id := 3, keg_instance_id := 9
    effective_start_ts := 0, effective_end_ts := none }

/-- A non-voided sale of quantity 3 at time 50. -/
def c6_sale : SalesLine :=
  { id := 1, source_system := SourceSystem.toast, source_location_id := "L1"
    location_id := 1, business_date := 0, sold_at := 50
    receipt_id := "r1", line_id := "1", pos_item_id := "draft-ipa"
    pos_item_name := "IPA", quantity := 3
    is_voided := false, is_refunded := false, size_modifier_id := none }

/-- The database of the spec's worked draft-depletion example. -/
def c6_db : DB :=
  { empty_db with
      sales_lines := [c6_sale]
      mappings := [c6_mapping]
      tap_assignments := [c6_assignment]
      pour_profiles := [c6_pour]
      next_id := 100 }

/-- A keg holding 10 oz with a single referencing ledger event of −20 oz. -/
def c8_keg : KegInstance :=
  { id := 9, location_id := 1, inventory_item_id := 4, keg_size_id := 1
    starting_oz := 10 }

/-- The −20 oz event referencing keg 9 at time 5. -/
def c8_event : ConsumptionEvent :=
  { id := 1, location_id := 1, event_type := EventType.pos_sale
    source_system := SourceSystem.toast, event_ts := 5
    inventory_item_id := 4, keg_instance_id := some 9, tap_line_id := some 3
    receipt_id := none, sales_line_id := some 1, quantity_delta := -20
    uom := UOMEnum.oz, confidence_level := ConfidenceLevel.theoretical
    variance_reason := none, notes := "", reversal_of_event_id := none }

/-- Database holding only the over-consuming keg event. -/
def c8_db : DB := { empty_db with events := [c8_event] }

/-! ## Claims C6, C8, C10 -/

/-- C6: with a tap-scoped draft mapping carrying a 16 fl-oz pour profile, a
non-voided sale of quantity 3 at time 50, and tap 3 assigned to keg 9 at
that time, the depletion run commits exactly one event with delta −48,
unit fluid-ounce and keg reference 9, and returns one created line. -/
theorem claim_C6_tap_pour_example :
    ((events_after c6_db (process_sales_lines c6_db 1 0 100)).map
      (fun e => (e.quantity_delta, e.uom, e.keg_instance_id, e.sales_line_id))) =
        [(-48, UOMEnum.oz, some 9, some 1)] ∧
    run_stats (process_sales_lines c6_db 1 0 100) =
      some { processed := 1, created := 1, unmapped := 0, skipped := 0 } := by
  constructor
  · norm_num [process_sales_lines, process_step, in_window, c6_db, c6_sale,
      c6_mapping, c6_assignment, c6_pour, empty_db, is_already_depleted,
      get_active_mapping, mapping_matches, create_consumption_events,
      deplete_draft_by_tap, assignment_matches, events_after, List.find?,
      List.filter]
  · rfl

/-- C8 counterexample: the code clamps remaining volume at zero, so for a
keg of 10 oz with −20 oz of referencing ledger deltas up to the cutoff,
`get_remaining_oz` returns 0 while starting volume plus the sum of deltas
is −10 — the claim's un-clamped formula does not hold on the code. -/
theorem claim_C8_counterexample :
    get_remaining_oz c8_db c8_keg 10 = 0 ∧
    c8_keg.starting_oz + keg_deltas_sum c8_db c8_keg.id 10 = -10 ∧
    get_remaining_oz c8_db c8_keg 10 ≠
      c8_keg.starting_oz + keg_deltas_sum c8_db c8_keg.id 10 := by
  have h1 : get_remaining_oz c8_db c8_keg 10 = 0 := by
    norm_num [get_remaining_oz, c8_db, c8_keg, c8_event, empty_db, List.filter,
      max_def]
  have h2 : c8_keg.starting_oz + keg_deltas_sum c8_db c8_keg.id 10 = -10 := by
    norm_num [keg_deltas_sum, c8_db, c8_keg, c8_event, empty_db, List.filter]
  refine ⟨h1, h2, ?_⟩
  rw [h1, h2]
  norm_num

/-- C8 as amended: for every keg and cutoff, the computed (never stored)
remaining volume equals the starting volume plus the sum of the deltas of
all ledger events referencing the keg with event time up to the cutoff,
clamped below at zero. -/
theorem claim_C8_amended (db : DB) (keg : KegInstance) (as_of : Int) :
    get_remaining_oz db keg as_of =
      max 0 (keg.starting_oz + keg_deltas_sum db keg.id as_of) := by
  have key : ∀ (l : List ConsumptionEvent) (init : Rat),
      l.foldl (fun r e => if e.event_ts ≤ as_of then r + e.quantity_delta else r) init =
        init + ((l.filter (fun e => decide (e.event_ts ≤ as_of))).map
          (fun e => e.quantity_delta)).sum := by
    intro l
    induction l with
    | nil => intro init; simp
    | cons a l ih =>
      intro init
      by_cases h : a.event_ts ≤ as_of
      · simp [List.filter_cons, h, ih, add_assoc]
      · simp [List.filter_cons, h, ih]
  unfold get_remaining_oz keg_deltas_sum
  rw [key, List.filter_filter]

/-- C10: the variance report's percentage is the windowed adjustment sum
over the absolute theoretical `pos_sale` sum times 100, and is 0 — not a
division failure — whenever the theoretical sum is zero. -/
theorem claim_C10_variance_percent (db : DB) (from_ts to_ts now : Int)
    (item : InventoryItem) :
    (variance_report_item db from_ts to_ts now item).variance_percent =
      if theoretical_pos_sum db item.id from_ts to_ts = 0 then 0
      else adjustment_window_sum db item.id from_ts to_ts /
        |theoretical_pos_sum db item.id from_ts to_ts| * 100 := by
  unfold variance_report_item theoretical_pos_sum adjustment_window_sum
  by_cases h : ((db.events.filter (fun e =>
      decide (e.inventory_item_id = item.id) &&
      decide (e.event_ts ≥ from_ts) && decide (e.event_ts < to_ts) &&
      decide (e.event_type = EventType.pos_sale))).map
    (fun e => e.quantity_delta)).sum = 0 <;>
    simp [h, add_sub_cancel_left]

/-! ## Structural lemmas about the depletion run -/

theorem process_step_error (loc : Nat) (e : LedgerError) (sl : SalesLine) :
    process_step loc (Except.error e) sl = Except.error e := rfl

theorem foldl_process_error (loc : Nat) (ls : List SalesLine) (e : LedgerError) :
    ls.foldl (process_step loc) (Except.error e) = Except.error e := by
  induction ls with
  | nil => rfl
  | cons a ls ih => rw [List.foldl_cons, process_step_error]; exact ih

theorem process_step_ok (loc : Nat) (db : DB) (stats : RunStats)
    (sl : SalesLine) :
    (∃ db' stats', process_step loc (Except.ok (db, stats)) sl =
        Except.ok (db', stats') ∧
      db'.sales_lines = db.sales_lines ∧ db'.mappings = db.mappings ∧
      db'.tap_assignments = db.tap_assignments ∧
      db'.pour_profiles = db.pour_profiles ∧
      ∃ new, db'.events = db.events ++ new) ∨
    (∃ e, process_step loc (Except.ok (db, stats)) sl = Except.error e) := by
  unfold process_step
  cases hd : is_already_depleted db sl.id
  · cases hm : get_active_mapping db loc sl.source_system sl.pos_item_id
        sl.sold_at with
    | none =>
      refine Or.inl ⟨db, ⟨stats.processed + 1, stats.created,
        stats.unmapped + 1, stats.skipped⟩, ?_, rfl, rfl, rfl, rfl, [], by simp⟩
      simp [hd, hm]
    | some m =>
      cases hc : create_consumption_events db sl m db.next_id with
      | error e => exact Or.inr ⟨e, by simp [hd, hm, hc]⟩
      | ok evs =>
        refine Or.inl ⟨{ db with events := db.events ++ evs, next_id := db.next_id + evs.length }, ⟨stats.processed + 1, stats.created + evs.length, stats.unmapped, stats.skipped⟩, ?_, rfl, rfl, rfl, rfl, evs, rfl⟩
        simp [hd, hm, hc]
  · refine Or.inl ⟨db, ⟨stats.processed, stats.created, stats.unmapped,
      stats.skipped + 1⟩, ?_, rfl, rfl, rfl, rfl, [], by simp⟩
    simp [hd]

theorem foldl_process_ok (loc : Nat) (ls : List SalesLine) :
    ∀ (db : DB) (stats : RunStats),
    (∃ db' stats', ls.foldl (process_step loc) (Except.ok (db, stats)) =
        Except.ok (db', stats') ∧
      db'.sales_lines = db.sales_lines ∧ db'.mappings = db.mappings ∧
      db'.tap_assignments = db.tap_assignments ∧
      db'.pour_profiles = db.pour_profiles ∧
      ∃ new, db'.events = db.events ++ new) ∨
    (∃ e, ls.foldl (process_step loc) (Except.ok (db, stats)) =
      Except.error e) := by
  induction ls with
  | nil =>
    intro db stats
    exact Or.inl ⟨db, stats, rfl, rfl, rfl, rfl, rfl, [], by simp⟩
  | cons a ls ih =>
    intro db stats
    rw [List.foldl_cons]
    rcases process_step_ok loc db stats a with
      ⟨db1, st1, hstep, f1, f2, f3, f4, new1, f5⟩ | ⟨e, hstep⟩
    · rw [hstep]
      rcases ih db1 st1 with
        ⟨db2, st2, hfold, g1, g2, g3, g4, new2, g5⟩ | ⟨e, hfold⟩
      · exact Or.inl ⟨db2, st2, hfold, by rw [g1, f1], by rw [g2, f2],
          by rw [g3, f3], by rw [g4, f4], new1 ++ new2,
          by rw [g5, f5, List.append_assoc]⟩
      · exact Or.inr ⟨e, hfold⟩
    · rw [hstep, foldl_process_error]
      exact Or.inr ⟨e, rfl⟩

theorem process_sales_lines_events_extend (db : DB) (loc : Nat)
    (from_ts to_ts : Int) :
    ∃ new, events_after db (process_sales_lines db loc from_ts to_ts) =
      db.events ++ new := by
  unfold process_sales_lines
  rcases foldl_process_ok loc
      (db.sales_lines.filter (in_window loc from_ts to_ts)) db
      { processed := 0, created := 0, unmapped := 0, skipped := 0 } with
    ⟨db', st', h, -, -, -, -, new, hnew⟩ | ⟨e, h⟩
  · refine ⟨new, ?_⟩
    rw [h]
    exact hnew
  · refine ⟨[], ?_⟩
    rw [h]
    simp [events_after]

/-! ## Claim C2: ledger immutability -/

/-- C2: any attempted UPDATE or DELETE of a consumption event fails with
the immutability error and the table is unchanged (the operation returns
no post-state), and every write operation of the system — a depletion run,
a correction, a session close — only appends to the ledger: the prior rows
survive unchanged in their original positions. -/
theorem claim_C2_immutability (db : DB) (eid : Nat)
    (f : ConsumptionEvent → ConsumptionEvent) (oid : Nat) (d : Rat)
    (u : UOMEnum) (r : String) (now : Int) (sid : Nat)
    (reasons : Nat → Option VarianceReason) (cnow : Int) (loc : Nat)
    (from_ts to_ts : Int) :
    update_consumption_event db eid f =
      Except.error LedgerError.immutability_violation ∧
    delete_consumption_event db eid =
      Except.error LedgerError.immutability_violation ∧
    (∃ new, events_after db (correct_event db oid d u r now) =
      db.events ++ new) ∧
    (∃ new, events_after db (close_session db sid reasons cnow) =
      db.events ++ new) ∧
    (∃ new, events_after db (process_sales_lines db loc from_ts to_ts) =
      db.events ++ new) := by
  refine ⟨rfl, rfl, ?_, ?_, process_sales_lines_events_extend db loc from_ts to_ts⟩
  · unfold correct_event events_after
    cases h : db.events.find? (fun e => decide (e.id = oid)) with
    | none => exact ⟨[], by simp⟩
    | some original => exact ⟨_, rfl⟩
  · unfold close_session events_after
    cases h : db.sessions.find? (fun s => decide (s.id = sid)) with
    | none => exact ⟨[], by simp⟩
    | some s =>
      by_cases he : s.ended_ts.isSome
      · exact ⟨[], by simp [he]⟩
      · by_cases hr : ((db.session_lines.filter
            (fun l => decide (l.session_id = sid))).foldl
            (close_step db s reasons cnow) ([], 0, [])).2.2.isEmpty
        · refine ⟨((db.session_lines.filter
            (fun l => decide (l.session_id = sid))).foldl
            (close_step db s reasons cnow) ([], 0, [])).1, ?_⟩
          simp [he, hr]
        · exact ⟨[], by simp [he, hr]⟩

/-! ## Claim C3: mapping resolution -/

theorem find?_eq_filter_head {α : Type} (p : α → Bool) (l : List α) :
    l.find? p = (l.filter p).head? := by
  induction l with
  | nil => rfl
  | cons a l ih =>
    cases h : p a
    · rw [List.find?_cons_of_neg _ (by simp [h]), List.filter_cons, ih]
      simp [h]
    · rw [List.find?_cons_of_pos _ h, List.filter_cons]
      simp [h]

theorem mapping_matches_iff (loc : Nat) (ss : SourceSystem) (pid : String)
    (t : Int) (m : POSItemMapping) :
    mapping_matches loc ss pid t m = true ↔
      (m.location_id = loc ∧ m.source_system = ss ∧ m.pos_item_id = pid ∧
       m.active = true ∧ m.effective_from_ts ≤ t ∧
       ∀ e, m.effective_to_ts = some e → t < e) := by
  obtain ⟨mid, mloc, msys, mpid, minv, mmode, mpp, mtl, mact, mfrom, mto⟩ := m
  unfold mapping_matches
  cases mto <;> simp [and_assoc]

theorem matches_not_disjoint (loc : Nat) (ss : SourceSystem) (pid : String)
    (t : Int) (m m' : POSItemMapping)
    (h1 : mapping_matches loc ss pid t m = true)
    (h2 : mapping_matches loc ss pid t m' = true) :
    windows_disjoint m m' = false := by
  rw [mapping_matches_iff] at h1 h2
  obtain ⟨-, -, -, -, hf1, ht1⟩ := h1
  obtain ⟨-, -, -, -, hf2, ht2⟩ := h2
  unfold windows_disjoint
  cases hm : m.effective_to_ts with
  | none =>
    cases hm' : m'.effective_to_ts with
    | none => rfl
    | some e' =>
      have := ht2 e' hm'
      simp only [decide_eq_false_iff_not, not_le]
      omega
  | some e =>
    have he := ht1 e hm
    cases hm' : m'.effective_to_ts with
    | none =>
      simp only [decide_eq_false_iff_not, not_le]
      omega
    | some e' =>
      have := ht2 e' hm'
      simp only [Bool.or_eq_false_iff, decide_eq_false_iff_not, not_le]
      omega

/-- Overlapping fixture: two identical active windows for the same key. -/
def c3_m1 : POSItemMapping :=
  { id := 1, location_id := 1, source_system := SourceSystem.toast
    pos_item_id := "ipa", inventory_item_id := 4
    mode := MappingMode.packaged_unit, pour_profile_id := none
    tap_line_id := none, active := true
    effective_from_ts := 0, effective_to_ts := none }

/-- Second mapping of the overlapping fixture, same key and window. -/
def c3_m2 : POSItemMapping := { c3_m1 with id := 2 }

/-- Database with two overlapping active mappings for one key. -/
def c3_db : DB := { empty_db with mappings := [c3_m1, c3_m2] }

/-- C3 counterexample: at time 50 two active mappings for the key are
effective, yet the resolver returns the first in table order instead of
failing — no `AmbiguousMappingError` exists anywhere in the code, so the
claimed raise-on-ambiguity behaviour is false on the code. -/
theorem claim_C3_counterexample :
    matching_mapping_count c3_db 1 SourceSystem.toast "ipa" 50 = 2 ∧
    get_active_mapping c3_db 1 SourceSystem.toast "ipa" 50 = some c3_m1 := by
  constructor <;> rfl

/-- C3 as amended: for a duplicate-free mapping table whose active windows
for the queried key are pairwise disjoint, resolution returns the unique
effective mapping when one exists and `none` otherwise; when several
windows do overlap the resolver does not raise — it silently returns the
first match in table order (see the counterexample). -/
theorem claim_C3_amended (db : DB) (loc : Nat) (ss : SourceSystem)
    (pid : String) (t : Int)
    (hnd : db.mappings.Nodup)
    (hdisj : ∀ m ∈ db.mappings, ∀ m' ∈ db.mappings, m ≠ m' →
      m.location_id = loc → m'.location_id = loc →
      m.source_system = ss → m'.source_system = ss →
      m.pos_item_id = pid → m'.pos_item_id = pid →
      m.active = true → m'.active = true →
      windows_disjoint m m' = true) :
    (get_active_mapping db loc ss pid t = none ∧
      matching_mapping_count db loc ss pid t = 0) ∨
    (∃ m, get_active_mapping db loc ss pid t = some m ∧
      matching_mapping_count db loc ss pid t = 1) := by
  unfold get_active_mapping matching_mapping_count
  rw [find?_eq_filter_head]
  cases hl : db.mappings.filter (mapping_matches loc ss pid t) with
  | nil => exact Or.inl ⟨rfl, by simp⟩
  | cons a l' =>
    cases hl' : l' with
    | nil => exact Or.inr ⟨a, rfl, by simp⟩
    | cons b l'' =>
      exfalso
      subst hl'
      have hnf : (db.mappings.filter (mapping_matches loc ss pid t)).Nodup :=
        List.Nodup.filter _ hnd
      rw [hl] at hnf
      have hab : a ≠ b := by
        intro h
        subst h
        exact (List.nodup_cons.mp hnf).1 (List.mem_cons_self a l'')
      have ha : a ∈ db.mappings ∧ mapping_matches loc ss pid t a = true := by
        have : a ∈ db.mappings.filter (mapping_matches loc ss pid t) := by
          rw [hl]; exact List.mem_cons_self a (b :: l'')
        exact ⟨(List.mem_filter.mp this).1, (List.mem_filter.mp this).2⟩
      have hb : b ∈ db.mappings ∧ mapping_matches loc ss pid t b = true := by
        have : b ∈ db.mappings.filter (mapping_matches loc ss pid t) := by
          rw [hl]; exact List.mem_cons_of_mem a (List.mem_cons_self b l'')
        exact ⟨(List.mem_filter.mp this).1, (List.mem_filter.mp this).2⟩
      have sa := (mapping_matches_iff loc ss pid t a).mp ha.2
      have sb := (mapping_matches_iff loc ss pid t b).mp hb.2
      have hd := hdisj a ha.1 b hb.1 hab sa.1 sb.1 sa.2.1 sb.2.1 sa.2.2.1
        sb.2.2.1 sa.2.2.2.1 sb.2.2.2.1
      rw [matches_not_disjoint loc ss pid t a b ha.2 hb.2] at hd
      exact Bool.false_ne_true hd

/-- First mapping of the disjoint-windows fixture: window `[0, 10)`. -/
def c3w_m1 : POSItemMapping := { c3_m1 with effective_to_ts := some 10 }

/-- Second mapping of the disjoint-windows fixture: window `[10, none)`. -/
def c3w_m2 : POSItemMapping := { c3_m1 with id := 2, effective_from_ts := 10 }

/-- Database with two disjoint active windows for one key. -/
def c3w_db : DB := { empty_db with mappings := [c3w_m1, c3w_m2] }

/-- Witness for the amended C3 at a concrete non-overlapping fixture. -/
theorem claim_C3_amended_witness :
    ((get_active_mapping c3w_db 1 SourceSystem.toast "ipa" 5 = none ∧
      matching_mapping_count c3w_db 1 SourceSystem.toast "ipa" 5 = 0) ∨
    (∃ m, get_active_mapping c3w_db 1 SourceSystem.toast "ipa" 5 = some m ∧
      matching_mapping_count c3w_db 1 SourceSystem.toast "ipa" 5 = 1)) :=
  claim_C3_amended c3w_db 1 SourceSystem.toast "ipa" 5 (by decide) (by decide)

/-! ## Claim C7: void/refund reversals -/

/-- Draft mapping with a pour profile, for the C7 counterexample. -/
def c7_mapping : POSItemMapping :=
  { id := 2, location_id := 1, source_system := SourceSystem.toast
    pos_item_id := "draft-ipa", inventory_item_id := 4
    mode := MappingMode.draft_by_tap, pour_profile_id := some 5
    tap_line_id := some 3, active := true
    effective_from_ts := 0, effective_to_ts := none }

/-- A voided sale of quantity 3 for the C7 counterexample. -/
def c7_void_sale : SalesLine := { c6_sale with is_voided := true }

/-- Database with the draft mapping and its pour profile. -/
def c7_db : DB :=
  { empty_db with pour_profiles := [c6_pour], mappings := [c7_mapping] }

/-- The C7 counterexample database with the voided sale in the window. -/
def c7_run_db : DB :=
  { empty_db with
      sales_lines := [c7_void_sale]
      mappings := [c7_mapping]
      pour_profiles := [c6_pour] }

/-- C7 counterexample: for a voided sale whose resolved mapping is
tap-scoped draft, the engine posts no reversal event at all — the
reversal branch references the unbound name `PourProfile` and raises
`NameError`, aborting the whole run — contradicting the claim that
exactly one positive reversal event is posted. -/
theorem claim_C7_counterexample :
    create_consumption_events c7_db c7_void_sale c7_mapping 0 =
      Except.error LedgerError.name_error ∧
    process_sales_lines c7_run_db 1 0 100 =
      Except.error LedgerError.name_error := by
  constructor <;> rfl

/-- C7 as amended: a voided or refunded sale with a resolvable
packaged-unit mapping posts exactly one reversal event — delta equal to
the sold quantity in units (the exact negation of the depletion the
original sale would have produced), confidence theoretical, sales-line
provenance, no `reversal_of` back-reference. A voided or refunded sale
with any other mapping mode posts nothing: the reversal branch raises on
the unbound `PourProfile` name and the batch aborts. -/
theorem claim_C7_amended (db : DB) (sl : SalesLine) (m : POSItemMapping)
    (eid eid' : Nat) (h : sl.is_voided = true ∨ sl.is_refunded = true) :
    (m.mode = MappingMode.packaged_unit →
      ∃ ev, create_consumption_events db sl m eid = Except.ok [ev] ∧
        ev.sales_line_id = some sl.id ∧
        ev.reversal_of_event_id = none ∧
        ev.confidence_level = ConfidenceLevel.theoretical ∧
        ev.quantity_delta = sl.quantity ∧
        ev.uom = UOMEnum.units ∧
        (∀ e, create_consumption_events db (unvoid sl) m eid' =
            Except.ok [e] →
          ev.quantity_delta = -e.quantity_delta ∧ ev.uom = e.uom)) ∧
    (m.mode ≠ MappingMode.packaged_unit →
      create_consumption_events db sl m eid =
        Except.error LedgerError.name_error) := by
  have hv : (sl.is_voided || sl.is_refunded) = true := by
    rcases h with h | h <;> simp [h]
  constructor
  · intro hmode
    unfold create_consumption_events
    rw [if_pos hv]
    unfold create_reversal_event
    rw [if_pos hmode]
    refine ⟨_, rfl, rfl, rfl, rfl, rfl, rfl, ?_⟩
    intro e he
    rw [if_neg (by simp [unvoid])] at he
    rw [hmode] at he
    simp only [Except.ok.injEq, List.cons.injEq, and_true] at he
    rw [← he]
    constructor
    · show sl.quantity = -(deplete_packaged (unvoid sl) m eid').quantity_delta
      simp [deplete_packaged, unvoid]
    · rfl
  · intro hmode
    unfold create_consumption_events
    rw [if_pos hv]
    unfold create_reversal_event
    rw [if_neg hmode]

/-- Witness for the amended C7: a concrete voided packaged sale posts the
reversal, and a concrete voided draft sale raises. -/
theorem claim_C7_amended_witness :
    (∃ ev, create_consumption_events c3_db c7_void_sale c3_m1 0 =
        Except.ok [ev] ∧
      ev.sales_line_id = some c7_void_sale.id ∧
      ev.reversal_of_event_id = none ∧
      ev.confidence_level = ConfidenceLevel.theoretical ∧
      ev.quantity_delta = c7_void_sale.quantity ∧
      ev.uom = UOMEnum.units ∧
      (∀ e, create_consumption_events c3_db (unvoid c7_void_sale) c3_m1 1 =
          Except.ok [e] →
        ev.quantity_delta = -e.quantity_delta ∧ ev.uom = e.uom)) ∧
    create_consumption_events c3_db c7_void_sale c7_mapping 2 =
      Except.error LedgerError.name_error :=
  ⟨(claim_C7_amended c3_db c7_void_sale c3_m1 0 1 (Or.inl rfl)).1 rfl,
   (claim_C7_amended c3_db c7_void_sale c7_mapping 2 3 (Or.inl rfl)).2
     (by decide)⟩

/-! ## Claim C9: unresolved tap assignment -/

/-- Database for the C9 counterexample: a tap-scoped draft mapping with a
pour profile but no tap assignment, and one matching sale in the window. -/
def c9_db : DB :=
  { empty_db with
      sales_lines := [c6_sale]
      mappings := [c7_mapping]
      pour_profiles := [c6_pour] }

/-- C9 counterexample: a tap-scoped draft sale with no effective tap
assignment emits no event and does not fail, but the run's returned stats
count it under `processed` with `skipped = 0` and `unmapped = 0` — no
skipped/unresolved count surfaces it, contrary to the claim. -/
theorem claim_C9_counterexample :
    events_after c9_db (process_sales_lines c9_db 1 0 100) = [] ∧
    run_stats (process_sales_lines c9_db 1 0 100) =
      some { processed := 1, created := 0, unmapped := 0, skipped := 0 } := by
  constructor <;> rfl

theorem deplete_draft_by_tap_no_assignment (db : DB) (sl : SalesLine)
    (m : POSItemMapping) (eid : Nat) (tl : Nat)
    (htl : m.tap_line_id = some tl)
    (hta : ∀ a ∈ db.tap_assignments,
      assignment_matches tl sl.sold_at a = false) :
    deplete_draft_by_tap db sl m eid = [] := by
  have hfa : db.tap_assignments.find? (assignment_matches tl sl.sold_at) = none :=
    List.find?_eq_none.mpr (fun a ha => by simp [hta a ha])
  cases hpp : m.pour_profile_id with
  | none => simp [deplete_draft_by_tap, hpp]
  | some ppid =>
    cases hfind : db.pour_profiles.find? (fun p => decide (p.id = ppid)) with
    | none => simp [deplete_draft_by_tap, hpp, hfind]
    | some pp => simp [deplete_draft_by_tap, hpp, hfind, htl, hfa]

/-- C9 as amended: when the only sale in the window resolves to a
tap-scoped draft mapping whose tap line has no effective assignment at the
sale time, the run emits no event and does not fail, and the record is
reflected only in `processed` — the returned stats (which have no
unresolved counter) leave `skipped` and `unmapped` at zero. -/
theorem claim_C9_amended (db : DB) (loc : Nat) (from_ts to_ts : Int)
    (sl : SalesLine) (m : POSItemMapping) (tl : Nat)
    (hw : db.sales_lines.filter (in_window loc from_ts to_ts) = [sl])
    (hnd : is_already_depleted db sl.id = false)
    (hnv : sl.is_voided = false) (hnr : sl.is_refunded = false)
    (hm : get_active_mapping db loc sl.source_system sl.pos_item_id
      sl.sold_at = some m)
    (hmode : m.mode = MappingMode.draft_by_tap)
    (htl : m.tap_line_id = some tl)
    (hta : ∀ a ∈ db.tap_assignments,
      assignment_matches tl sl.sold_at a = false) :
    events_after db (process_sales_lines db loc from_ts to_ts) = db.events ∧
    run_stats (process_sales_lines db loc from_ts to_ts) =
      some { processed := 1, created := 0, unmapped := 0, skipped := 0 } := by
  have hce : create_consumption_events db sl m db.next_id = Except.ok [] := by
    simp [create_consumption_events, hnv, hnr, hmode,
      deplete_draft_by_tap_no_assignment db sl m db.next_id tl htl hta]
  unfold process_sales_lines
  rw [hw]
  simp only [List.foldl_cons, List.foldl_nil]
  unfold process_step
  simp [hnd, hm, hce, events_after, run_stats]

/-- Witness for the amended C9 at the concrete counterexample fixture. -/
theorem claim_C9_amended_witness :
    events_after c9_db (process_sales_lines c9_db 1 0 100) = c9_db.events ∧
    run_stats (process_sales_lines c9_db 1 0 100) =
      some { processed := 1, created := 0, unmapped := 0, skipped := 0 } :=
  claim_C9_amended c9_db 1 0 100 c6_sale c7_mapping 3 (by rfl) (by rfl)
    (by rfl) (by rfl) (by rfl) (by rfl) (by rfl) (by decide)

/-! ## Claim C4: correction via reversal + replacement -/

/-- The ledger "as if the original event's delta had been `d` (unit `u`)
all along": the original list with exactly the event `oid` rewritten. -/
def amended_events (events : List ConsumptionEvent) (oid : Nat) (d : Rat)
    (u : UOMEnum) : List ConsumptionEvent :=
  events.map (fun ev =>
    if ev.id = oid then { ev with quantity_delta := d, uom := u } else ev)

theorem on_hand_cons (e : ConsumptionEvent) (l : List ConsumptionEvent)
    (item : Nat) :
    on_hand (e :: l) item =
      (if e.inventory_item_id = item then e.quantity_delta else 0) +
        on_hand l item := by
  unfold on_hand
  by_cases h : e.inventory_item_id = item <;> simp [List.filter_cons, h]

theorem on_hand_append (l1 l2 : List ConsumptionEvent) (item : Nat) :
    on_hand (l1 ++ l2) item = on_hand l1 item + on_hand l2 item := by
  unfold on_hand
  simp [List.filter_append]

theorem amended_events_id (l : List ConsumptionEvent) (oid : Nat) (d : Rat)
    (u : UOMEnum) (h : l.countP (fun ev => decide (ev.id = oid)) = 0) :
    amended_events l oid d u = l := by
  induction l with
  | nil => rfl
  | cons a l ih =>
    rw [List.countP_cons] at h
    by_cases ha : a.id = oid
    · simp [ha] at h
    · rw [if_neg (by simp [ha]), add_zero] at h
      show (if a.id = oid then { a with quantity_delta := d, uom := u } else a) ::
        amended_events l oid d u = a :: l
      rw [if_neg ha, ih h]

theorem on_hand_amended (l : List ConsumptionEvent) (oid : Nat)
    (e : ConsumptionEvent) (d : Rat) (u : UOMEnum) (item : Nat)
    (hfind : l.find? (fun ev => decide (ev.id = oid)) = some e)
    (hcount : l.countP (fun ev => decide (ev.id = oid)) = 1)
    (hitem : e.inventory_item_id = item) :
    on_hand (amended_events l oid d u) item =
      on_hand l item - e.quantity_delta + d := by
  induction l with
  | nil => simp at hfind
  | cons a l ih =>
    by_cases ha : a.id = oid
    · rw [List.find?_cons_of_pos _ (by simp [ha])] at hfind
      have hae : a = e := by injection hfind
      rw [List.countP_cons, if_pos (by simp [ha])] at hcount
      have hc0 : l.countP (fun ev => decide (ev.id = oid)) = 0 := by omega
      have hmap := amended_events_id l oid d u hc0
      show on_hand ((if a.id = oid then { a with quantity_delta := d, uom := u }
        else a) :: amended_events l oid d u) item = _
      rw [if_pos ha, hmap, on_hand_cons, on_hand_cons]
      subst hae
      simp only [hitem, if_pos trivial, eq_self_iff_true]
      ring
    · rw [List.find?_cons_of_neg _ (by simp [ha])] at hfind
      rw [List.countP_cons, if_neg (by simp [ha]), add_zero] at hcount
      have hrec := ih hfind hcount
      show on_hand ((if a.id = oid then { a with quantity_delta := d, uom := u }
        else a) :: amended_events l oid d u) item = _
      rw [if_neg ha, on_hand_cons, on_hand_cons, hrec]
      ring

/-- C4: correcting an existing, uniquely identified event succeeds, appends
exactly a reversal (negated delta, same unit and subject, back-reference
to the original, confidence estimated) and a replacement (delta `d`, unit
`u`, no back-reference, confidence estimated), leaves the original row in
place unchanged, and the resulting on-hand for the subject equals the
on-hand of the ledger in which the original event had carried delta `d`
and unit `u` all along. -/
theorem claim_C4_correction (db : DB) (oid : Nat) (d : Rat) (u : UOMEnum)
    (r : String) (now : Int) (e : ConsumptionEvent)
    (hfind : db.events.find? (fun ev => decide (ev.id = oid)) = some e)
    (hcount : db.events.countP (fun ev => decide (ev.id = oid)) = 1) :
    ∃ db' rid pid, correct_event db oid d u r now = Except.ok (db', (rid, pid)) ∧
      ∃ rev repl, db'.events = db.events ++ [rev, repl] ∧
        rev.quantity_delta = -e.quantity_delta ∧ rev.uom = e.uom ∧
        rev.inventory_item_id = e.inventory_item_id ∧
        rev.keg_instance_id = e.keg_instance_id ∧
        rev.tap_line_id = e.tap_line_id ∧
        rev.reversal_of_event_id = some oid ∧
        rev.confidence_level = ConfidenceLevel.estimated ∧
        repl.quantity_delta = d ∧ repl.uom = u ∧
        repl.inventory_item_id = e.inventory_item_id ∧
        repl.reversal_of_event_id = none ∧
        repl.confidence_level = ConfidenceLevel.estimated ∧
        db'.events.find? (fun ev => decide (ev.id = oid)) = some e ∧
        on_hand db'.events e.inventory_item_id =
          on_hand (amended_events db.events oid d u) e.inventory_item_id := by
  unfold correct_event
  rw [hfind]
  refine ⟨_, _, _, rfl, _, _, rfl, rfl, rfl, rfl, rfl, rfl, rfl, rfl, rfl,
    rfl, rfl, rfl, rfl, ?_, ?_⟩
  · rw [List.find?_append, hfind]
    rfl
  · rw [on_hand_append,
      on_hand_amended db.events oid e d u e.inventory_item_id hfind hcount rfl,
      on_hand_cons, on_hand_cons]
    simp [on_hand]
    ring

/-- Original event fixture for the C4 witness. -/
def c4_event : ConsumptionEvent :=
  { id := 1, location_id := 1, event_type := EventType.pos_sale
    source_system := SourceSystem.toast, event_ts := 5
    inventory_item_id := 4, keg_instance_id := none, tap_line_id := none
    receipt_id := none, sales_line_id := some 1, quantity_delta := -3
    uom := UOMEnum.units, confidence_level := ConfidenceLevel.theoretical
    variance_reason := none, notes := "", reversal_of_event_id := none }

/-- Ledger with the single original event, for the C4 witness. -/
def c4_db : DB := { empty_db with events := [c4_event], next_id := 50 }

/-- Witness for C4 at a concrete ledger with one correctable event. -/
theorem claim_C4_correction_witness :
    ∃ db' rid pid,
      correct_event c4_db 1 (-5) UOMEnum.units "miscount" 60 =
        Except.ok (db', (rid, pid)) ∧
      ∃ rev repl, db'.events = c4_db.events ++ [rev, repl] ∧
        rev.quantity_delta = -c4_event.quantity_delta ∧
        rev.uom = c4_event.uom ∧
        rev.inventory_item_id = c4_event.inventory_item_id ∧
        rev.keg_instance_id = c4_event.keg_instance_id ∧
        rev.tap_line_id = c4_event.tap_line_id ∧
        rev.reversal_of_event_id = some 1 ∧
        rev.confidence_level = ConfidenceLevel.estimated ∧
        repl.quantity_delta = -5 ∧ repl.uom = UOMEnum.units ∧
        repl.inventory_item_id = c4_event.inventory_item_id ∧
        repl.reversal_of_event_id = none ∧
        repl.confidence_level = ConfidenceLevel.estimated ∧
        db'.events.find? (fun ev => decide (ev.id = 1)) = some c4_event ∧
        on_hand db'.events c4_event.inventory_item_id =
          on_hand (amended_events c4_db.events 1 (-5) UOMEnum.units)
            c4_event.inventory_item_id :=
  claim_C4_correction c4_db 1 (-5) UOMEnum.units "miscount" 60 c4_event
    (by rfl) (by rfl)

/-! ## Claim C5: session close atomicity -/

/-- Whether a line trips the variance-reason gate: absolute variance above
threshold with no reason supplied for its item. -/
def line_required (db : DB) (s : InventorySession)
    (reasons : Nat → Option VarianceReason) (l : InventorySessionLine) : Bool :=
  decide (variance_threshold < |line_variance db s l|) &&
    (reasons l.inventory_item_id).isNone

/-- The lines of a session, in table order. -/
def lines_of (db : DB) (sid : Nat) : List InventorySessionLine :=
  db.session_lines.filter (fun l => decide (l.session_id = sid))

/-- The items `close_session` reports as requiring a variance reason. -/
def required_items (db : DB) (s : InventorySession)
    (reasons : Nat → Option VarianceReason) (sid : Nat) : List Nat :=
  ((lines_of db sid).filter (line_required db s reasons)).map
    (fun l => l.inventory_item_id)

theorem theoretical_append_of_ts (events extra : List ConsumptionEvent)
    (item : Nat) (as_of : Int) (h : ∀ a ∈ extra, ¬ a.event_ts ≤ as_of) :
    calculate_theoretical_on_hand (events ++ extra) item as_of =
      calculate_theoretical_on_hand events item as_of := by
  unfold calculate_theoretical_on_hand
  rw [List.filter_append]
  have : extra.filter (fun e =>
      decide (e.inventory_item_id = item) && decide (e.event_ts ≤ as_of)) = [] := by
    rw [List.filter_eq_nil_iff]
    intro a ha
    simp [h a ha]
  rw [this]
  simp

theorem close_step_eq (db : DB) (s : InventorySession)
    (reasons : Nat → Option VarianceReason) (now : Int)
    (acc : List ConsumptionEvent × Rat × List Nat) (l : InventorySessionLine)
    (hnow : s.started_ts < now) (hacc : ∀ a ∈ acc.1, a.event_ts = now) :
    close_step db s reasons now acc l =
      if line_required db s reasons l then
        (acc.1, acc.2.1 + |line_variance db s l|, acc.2.2 ++ [l.inventory_item_id])
      else if line_variance db s l = 0 then
        (acc.1, acc.2.1 + |line_variance db s l|, acc.2.2)
      else
        (acc.1 ++ [make_adjustment_event s l (line_variance db s l)
            (reasons l.inventory_item_id) now (db.next_id + acc.1.length)],
         acc.2.1 + |line_variance db s l|, acc.2.2) := by
  have hth : calculate_theoretical_on_hand (db.events ++ acc.1)
      l.inventory_item_id s.started_ts =
      calculate_theoretical_on_hand db.events l.inventory_item_id s.started_ts :=
    theoretical_append_of_ts db.events acc.1 l.inventory_item_id s.started_ts
      (fun a ha => by rw [hacc a ha]; omega)
  unfold close_step
  simp only [hth]
  rfl

theorem close_fold_spec (db : DB) (s : InventorySession)
    (reasons : Nat → Option VarianceReason) (now : Int)
    (hnow : s.started_ts < now) (ls : List InventorySessionLine) :
    ∀ (acc : List ConsumptionEvent × Rat × List Nat),
    (∀ a ∈ acc.1, a.event_ts = now) →
    ((ls.foldl (close_step db s reasons now) acc).2.2 =
      acc.2.2 ++ (ls.filter (line_required db s reasons)).map
        (fun l => l.inventory_item_id)) ∧
    ((ls.foldl (close_step db s reasons now) acc).1.length =
      acc.1.length + (ls.filter (fun l => !line_required db s reasons l &&
        decide (line_variance db s l ≠ 0))).length) ∧
    (∀ a ∈ (ls.foldl (close_step db s reasons now) acc).1,
      a ∈ acc.1 ∨ (a.event_type = EventType.inventory_count_adjustment ∧
        a.confidence_level = ConfidenceLevel.measured ∧ a.event_ts = now)) := by
  induction ls with
  | nil => exact fun acc hacc => ⟨by simp, by simp, fun a ha => Or.inl ha⟩
  | cons l ls ih =>
    intro acc hacc
    rw [List.foldl_cons, close_step_eq db s reasons now acc l hnow hacc]
    by_cases hreq : line_required db s reasons l = true
    · rw [if_pos hreq]
      obtain ⟨h1, h2, h3⟩ := ih
        (acc.1, acc.2.1 + |line_variance db s l|, acc.2.2 ++ [l.inventory_item_id])
        hacc
      refine ⟨?_, ?_, ?_⟩
      · rw [h1, List.filter_cons, if_pos hreq]
        simp
      · rw [h2, List.filter_cons]
        simp [hreq]
      · exact h3
    · rw [if_neg hreq]
      by_cases hz : line_variance db s l = 0
      · rw [if_pos hz]
        obtain ⟨h1, h2, h3⟩ := ih (acc.1, acc.2.1 + |line_variance db s l|, acc.2.2) hacc
        refine ⟨?_, ?_, ?_⟩
        · rw [h1, List.filter_cons, if_neg (by simp [hreq])]
        · rw [h2, List.filter_cons]
          simp [hreq, hz]
        · exact h3
      · rw [if_neg hz]
        have hacc' : ∀ a ∈ acc.1 ++ [make_adjustment_event s l
            (line_variance db s l) (reasons l.inventory_item_id) now
            (db.next_id + acc.1.length)], a.event_ts = now := by
          intro a ha
          rcases List.mem_append.mp ha with ha | ha
          · exact hacc a ha
          · rw [List.mem_singleton] at ha
            rw [ha]
            rfl
        obtain ⟨h1, h2, h3⟩ := ih
          (acc.1 ++ [make_adjustment_event s l (line_variance db s l)
            (reasons l.inventory_item_id) now (db.next_id + acc.1.length)],
           acc.2.1 + |line_variance db s l|, acc.2.2) hacc'
        refine ⟨?_, ?_, ?_⟩
        · rw [h1, List.filter_cons, if_neg (by simp [hreq])]
        · rw [h2, List.filter_cons]
          simp [hreq, hz, Nat.add_assoc, Nat.add_comm 1]
        · intro a ha
          rcases h3 a ha with ha' | ha'
          · rcases List.mem_append.mp ha' with ha'' | ha''
            · exact Or.inl ha''
            · rw [List.mem_singleton] at ha''
              exact Or.inr (by rw [ha'']; exact ⟨rfl, rfl, rfl⟩)
          · exact Or.inr ha'

theorem close_session_eq (db : DB) (sid : Nat)
    (reasons : Nat → Option VarianceReason) (now : Int) (s : InventorySession)
    (hs : db.sessions.find? (fun x => decide (x.id = sid)) = some s)
    (hopen : s.ended_ts = none) :
    close_session db sid reasons now =
      if ((db.session_lines.filter (fun l => decide (l.session_id = sid))).foldl
            (close_step db s reasons now) ([], 0, [])).2.2.isEmpty then
        Except.ok
          ({ db with
              events := db.events ++
                ((db.session_lines.filter (fun l => decide (l.session_id = sid))).foldl
                  (close_step db s reasons now) ([], 0, [])).1
              next_id := db.next_id +
                ((db.session_lines.filter (fun l => decide (l.session_id = sid))).foldl
                  (close_step db s reasons now) ([], 0, [])).1.length
              sessions := db.sessions.map (fun x =>
                if x.id = sid then { x with ended_ts := some now } else x) },
           { session_id := sid
             adjustments_created :=
               ((db.session_lines.filter (fun l => decide (l.session_id = sid))).foldl
                 (close_step db s reasons now) ([], 0, [])).1.length
             total_variance :=
               ((db.session_lines.filter (fun l => decide (l.session_id = sid))).foldl
                 (close_step db s reasons now) ([], 0, [])).2.1 })
      else
        Except.error (LedgerError.missing_variance_reason
          ((db.session_lines.filter (fun l => decide (l.session_id = sid))).foldl
            (close_step db s reasons now) ([], 0, [])).2.2) := by
  unfold close_session
  rw [hs]
  simp only [hopen, Option.isSome_none, Bool.false_eq_true, if_false]

/-- C5: closing a session holding an over-threshold line with no reason for
its item aborts with the missing-variance-reason error naming exactly the
gated items, committing nothing — the ledger and the sessions table (hence
the still-open session row) are untouched; once every gated item has a
reason, the close succeeds, commits exactly one measured
`inventory_count_adjustment` event per nonzero-variance line, and only
then stamps the session's end timestamp. -/
theorem claim_C5_close_atomicity (db : DB) (sid : Nat)
    (reasons : Nat → Option VarianceReason) (now : Int) (s : InventorySession)
    (hs : db.sessions.find? (fun x => decide (x.id = sid)) = some s)
    (hopen : s.ended_ts = none)
    (hnow : s.started_ts < now) :
    (required_items db s reasons sid ≠ [] →
      close_session db sid reasons now =
        Except.error (LedgerError.missing_variance_reason
          (required_items db s reasons sid)) ∧
      events_after db (close_session db sid reasons now) = db.events ∧
      sessions_after db (close_session db sid reasons now) = db.sessions) ∧
    (required_items db s reasons sid = [] →
      ∃ db' res, close_session db sid reasons now = Except.ok (db', res) ∧
        ∃ adjs, db'.events = db.events ++ adjs ∧
          adjs.length = ((lines_of db sid).filter
            (fun l => decide (line_variance db s l ≠ 0))).length ∧
          res.adjustments_created = adjs.length ∧
          (∀ a ∈ adjs, a.event_type = EventType.inventory_count_adjustment ∧
            a.confidence_level = ConfidenceLevel.measured) ∧
          db'.sessions = db.sessions.map (fun x =>
            if x.id = sid then { x with ended_ts := some now } else x)) := by
  simp only [required_items, lines_of]
  obtain ⟨h1, h2, h3⟩ := close_fold_spec db s reasons now hnow
    (db.session_lines.filter (fun l => decide (l.session_id = sid)))
    ([], 0, []) (by intro a ha; simp at ha)
  rw [List.nil_append] at h1
  rw [close_session_eq db sid reasons now s hs hopen]
  constructor
  · intro hne
    have hemp : ¬ (((db.session_lines.filter
        (fun l => decide (l.session_id = sid))).foldl
        (close_step db s reasons now) ([], 0, [])).2.2.isEmpty = true) := by
      rw [List.isEmpty_iff, h1]
      exact hne
    rw [if_neg hemp]
    exact ⟨by rw [h1], rfl, rfl⟩
  · intro heq
    have hemp : (((db.session_lines.filter
        (fun l => decide (l.session_id = sid))).foldl
        (close_step db s reasons now) ([], 0, [])).2.2.isEmpty = true) := by
      rw [List.isEmpty_iff, h1]
      exact heq
    rw [if_pos hemp]
    have hall : ∀ l ∈ db.session_lines.filter (fun l => decide (l.session_id = sid)),
        line_required db s reasons l = false := by
      intro l hl
      by_contra hc
      rw [Bool.not_eq_false] at hc
      have hmem : l.inventory_item_id ∈
          ((db.session_lines.filter (fun l => decide (l.session_id = sid))).filter
            (line_required db s reasons)).map (fun l => l.inventory_item_id) :=
        List.mem_map_of_mem _ (List.mem_filter.mpr ⟨hl, hc⟩)
      rw [heq] at hmem
      exact absurd hmem (List.not_mem_nil _)
    refine ⟨_, _, rfl, _, rfl, ?_, rfl, ?_, rfl⟩
    · rw [h2]
      simp only [List.length_nil, Nat.zero_add]
      exact congrArg List.length
        (List.filter_congr (fun x hx => by rw [hall x hx]; simp))
    · intro a ha
      rcases h3 a ha with h | h
      · simp at h
      · exact ⟨h.1, h.2.1⟩

/-- Open counting session started at time 0, for the C5 witness. -/
def c5_session : InventorySession :=
  { id := 1, location_id := 1, started_ts := 0, ended_ts := none }

/-- One line counting 100 units of item 7 (theoretical is 0, so the
variance of 100 is far above the threshold of 5). -/
def c5_line : InventorySessionLine :=
  { id := 1, session_id := 1, inventory_item_id := 7
    count_units := some 100, tap_line_id := none, keg_instance_id := none
    percent_remaining := none, gross_weight_grams := none, derived_oz := none }

/-- Database for the C5 witness. -/
def c5_db : DB :=
  { empty_db with sessions := [c5_session], session_lines := [c5_line] }

/-- Reasons map supplying no reason at all. -/
def c5_no_reasons : Nat → Option VarianceReason := fun _ => none

/-- Reasons map supplying a reason for every item. -/
def c5_all_reasons : Nat → Option VarianceReason := fun _ => some VarianceReason.unknown

/-- Witness for C5: the concrete session aborts without reasons and closes
once reasons are supplied. -/
theorem claim_C5_close_atomicity_witness :
    (close_session c5_db 1 c5_no_reasons 100 =
      Except.error (LedgerError.missing_variance_reason
        (required_items c5_db c5_session c5_no_reasons 1)) ∧
      events_after c5_db (close_session c5_db 1 c5_no_reasons 100) = c5_db.events ∧
      sessions_after c5_db (close_session c5_db 1 c5_no_reasons 100) =
        c5_db.sessions) ∧
    (∃ db' res, close_session c5_db 1 c5_all_reasons 100 = Except.ok (db', res) ∧
      ∃ adjs, db'.events = c5_db.events ++ adjs ∧
        adjs.length = ((lines_of c5_db 1).filter
          (fun l => decide (line_variance c5_db c5_session l ≠ 0))).length ∧
        res.adjustments_created = adjs.length ∧
        (∀ a ∈ adjs, a.event_type = EventType.inventory_count_adjustment ∧
          a.confidence_level = ConfidenceLevel.measured) ∧
        db'.sessions = c5_db.sessions.map (fun x =>
          if x.id = 1 then { x with ended_ts := some 100 } else x)) := by
  constructor
  · exact (claim_C5_close_atomicity c5_db 1 c5_no_reasons 100 c5_session rfl rfl
      (by decide)).1
      (by norm_num [required_items, lines_of, line_required, line_variance,
        get_actual_from_line, calculate_theoretical_on_hand, variance_threshold,
        c5_db, c5_session, c5_line, c5_no_reasons, empty_db, List.filter])
  · exact (claim_C5_close_atomicity c5_db 1 c5_all_reasons 100 c5_session rfl rfl
      (by decide)).2
      (by norm_num [required_items, lines_of, line_required, c5_all_reasons,
        c5_db, c5_session, c5_line, empty_db, List.filter])

/-! ## Claim C1: idempotency of the depletion run -/

/-- An event referencing sales line 1, making that line already depleted. -/
def c1_event : ConsumptionEvent :=
  { id := 10, location_id := 1, event_type := EventType.pos_sale
    source_system := SourceSystem.toast, event_ts := 50
    inventory_item_id := 4, keg_instance_id := none, tap_line_id := none
    receipt_id := none, sales_line_id := some 1, quantity_delta := -1
    uom := UOMEnum.units, confidence_level := ConfidenceLevel.theoretical
    variance_reason := none, notes := "", reversal_of_event_id := none }

/-- A voided draft-mapped sale (id 2) not yet referenced by any event. -/
def c1_void_sale : SalesLine := { c6_sale with id := 2, is_voided := true }

/-- The C1 failing input: sales line 1 is already referenced (the claim's
premise — the engine must skip it and report `created = 0`), and the same
window also holds the unreferenced voided draft-mapped sales line 2. -/
def c1_db : DB :=
  { empty_db with
      sales_lines := [c6_sale, c1_void_sale]
      events := [c1_event]
      mappings := [c7_mapping]
      pour_profiles := [c6_pour] }

/-- C1, evaluated at the failing input: although sales line 1 is already
referenced by a consumption event, re-running the window does not return
`created = 0` with the line counted as skipped — reaching the voided
draft-mapped line, `_create_reversal_event` references the unbound name
`PourProfile` and the run raises `NameError`, returning no stats and
committing nothing. The engine's own docstring ("Idempotent: safe to
re-run on same sales data") promises what the claim states, so the code,
not the claim, is at fault. -/
theorem claim_C1_crash :
    is_already_depleted c1_db 1 = true ∧
    process_sales_lines c1_db 1 0 100 = Except.error LedgerError.name_error := by
  constructor <;> rfl

end Barstock
